import Mathlib

/-!
Shallow embedding of `map_pdb_cdb.py`: a utility that joins OCI pluggable
databases (PDBs) with their container databases (CDBs), database homes and
compartment, and writes the join as a six-column CSV file.

Modelling conventions:
  * Python dicts are association lists with last-binding-wins lookup
    (`dictGet`), matching insertion-order overwrite semantics.
  * The raw records consumed by the join (`pdb`, `db`, `home`, `compartment`)
    hold string attribute values, as in the control-plane data model.
  * `subprocess.run` and `json.loads` are external: `run_oci_command` is
    parameterised by the observable behaviour of the external process, namely
    its exit code and the parse outcome of its stdout (`none` = stdout is
    not parseable JSON, `some v` = it parses to the JSON value `v`).
  * The CSV layer models Python's `csv` module with the default dialect:
    `\r\n` line terminator, minimal quoting (a field is quoted iff it
    contains a delimiter, a quote or a line-terminator character), doubled
    quote escapes.  `parseCsv` models reading the file back with a strict
    CSV reader.
  * File-system effects are an association list of file name to contents;
    prints are accumulated in a log; `main` returning normally is exit 0.
-/

namespace MapPdbCdb

/-- JSON values, as produced by parsing the external process's stdout. -/
inductive Json where
  | null
  | bool (b : Bool)
  | num (n : Int)
  | str (s : String)
  | arr (elems : List Json)
  | obj (fields : List (String × Json))

/-- Result of a Python call: a normal return value, or an uncaught exception. -/
inductive PyResult (α : Type) where
  | ok (val : α)
  | exn (msg : String)

/-- Python `dict` lookup over an insertion-ordered association list: the most
recently inserted binding for a key wins. -/
def dictGet {α : Type} : List (String × α) → String → Option α
  | [], _ => none
  | (k, v) :: rest, key =>
    match dictGet rest key with
    | some w => some w
    | none => if k = key then some v else none

/-- Embeds `run_oci_command(command)`.  `returncode` and `stdout` describe the
external process: `stdout = none` means `json.loads` would raise
`JSONDecodeError` (caught), `some v` means stdout parses to `v`.  A non-dict
top-level JSON value makes `.get("data", [])` raise `AttributeError`, which
the Python code does not catch. -/
def run_oci_command (command : List String) (returncode : Int) (stdout : Option Json) : PyResult Json :=
  if returncode ≠ 0 then
    PyResult.ok (if "list" ∈ command then Json.arr [] else Json.obj [])
  else
    match stdout with
    | none => PyResult.ok (if "list" ∈ command then Json.arr [] else Json.obj [])
    | some (Json.obj fields) => PyResult.ok ((dictGet fields "data").getD (Json.arr []))
    | some _ => PyResult.exn "AttributeError"

/-- Embeds `get_pdb_list`, parameterised by the external process behaviour. -/
def get_pdb_list (profile compartment_id : String) (returncode : Int) (stdout : Option Json) : PyResult Json :=
  run_oci_command ["oci", "db", "pluggable-database", "list", "--limit", "1000", "--compartment-id", compartment_id, "--profile", profile] returncode stdout

/-- Embeds the command sent by `get_cdb_mapping`'s fetch. -/
def get_cdb_fetch (profile compartment_id : String) (returncode : Int) (stdout : Option Json) : PyResult Json :=
  run_oci_command ["oci", "db", "database", "list", "--limit", "2000", "--compartment-id", compartment_id, "--profile", profile] returncode stdout

/-- Embeds the command sent by `get_db_home_mapping`'s fetch. -/
def get_db_home_fetch (profile compartment_id : String) (returncode : Int) (stdout : Option Json) : PyResult Json :=
  run_oci_command ["oci", "db", "db-home", "list", "--limit", "1000", "--compartment-id", compartment_id, "--profile", profile] returncode stdout

/-- Embeds the command sent by `get_compartment_name`'s fetch. -/
def get_compartment_fetch (profile compartment_id : String) (returncode : Int) (stdout : Option Json) : PyResult Json :=
  run_oci_command ["oci", "iam", "compartment", "get", "--compartment-id", compartment_id, "--profile", profile] returncode stdout

/-- A raw control-plane record: a JSON object whose consumed attributes are
strings. -/
abbrev Record := List (String × String)

/-- Value of the CDB mapping built by `get_cdb_mapping`: both keys are always
set by the dict comprehension, so they are total fields here. -/
structure CdbInfo where
  CDB_Name : String
  DB_Home_ID : String
deriving DecidableEq, Repr

/-- Embeds the dict comprehension of `get_cdb_mapping` over the fetched
`databases` list (the fetch itself is externalised as the parameter). -/
def get_cdb_mapping (databases : List Record) : List (String × CdbInfo) :=
  databases.map (fun db =>
    ((dictGet db "id").getD "Unknown ID",
     { CDB_Name := (dictGet db "db-name").getD "Unknown CDB",
       DB_Home_ID := (dictGet db "db-home-id").getD "Unknown DB Home" }))

/-- Embeds the dict comprehension of `get_db_home_mapping` over the fetched
`db_homes` list. -/
def get_db_home_mapping (db_homes : List Record) : List (String × String) :=
  db_homes.map (fun home =>
    ((dictGet home "id").getD "Unknown DB Home",
     (dictGet home "display-name").getD "Unknown Oracle Home"))

/-- Embeds `get_compartment_name` applied to the fetched compartment record
(an empty record is falsy in Python, hence the guard). -/
def get_compartment_name (compartment : Record) : String :=
  if compartment = [] then "Unknown Compartment"
  else (dictGet compartment "name").getD "Unknown Compartment"

/-- One output row of the join, as written to the CSV file. -/
structure MappingRow where
  PDB_Name : String
  CDB_Name : String
  Oracle_Home : String
  Compartment_Name : String
  CDB_ID : String
  Compartment_ID : String
deriving DecidableEq, Repr

/-- The row expression of the list comprehension in `extract_pdb_cdb_mapping`.
Line-by-line correspondence with the Python dict literal:
  * `PDB_Name`: `pdb.get("pdb-name", "Unknown PDB")`;
  * `CDB_Name`: `cdb_mapping.get(pdb.get("container-database-id", "Unknown CDB"), {}).get("CDB_Name", "Unknown CDB")` —
    note the lookup key defaults to the string `"Unknown CDB"`;
  * `Oracle_Home`: `db_home_mapping.get(cdb_mapping.get(pdb.get("container-database-id"), {}).get("DB_Home_ID"), "Unknown Oracle Home")` —
    here the missing-attribute key is `None`, which matches no string key,
    and `{}.get("DB_Home_ID")` is `None`, hence the `Option.bind`;
  * `CDB_ID`: `pdb.get("container-database-id", "Unknown CDB")`. -/
def mkMappingRow (cdb_mapping : List (String × CdbInfo)) (db_home_mapping : List (String × String))
    (compartment_id compartment_name : String) (pdb : Record) : MappingRow :=
  { PDB_Name := (dictGet pdb "pdb-name").getD "Unknown PDB",
    CDB_Name :=
      match dictGet cdb_mapping ((dictGet pdb "container-database-id").getD "Unknown CDB") with
      | none => "Unknown CDB"
      | some info => info.CDB_Name,
    Oracle_Home :=
      match (dictGet pdb "container-database-id").bind (fun c => dictGet cdb_mapping c) with
      | none => "Unknown Oracle Home"
      | some info => (dictGet db_home_mapping info.DB_Home_ID).getD "Unknown Oracle Home",
    Compartment_Name := compartment_name,
    CDB_ID := (dictGet pdb "container-database-id").getD "Unknown CDB",
    Compartment_ID := compartment_id }

/-- Embeds `extract_pdb_cdb_mapping`: one row per PDB, in input order. -/
def extract_pdb_cdb_mapping (pdbs : List Record) (cdb_mapping : List (String × CdbInfo))
    (db_home_mapping : List (String × String)) (compartment_id compartment_name : String) : List MappingRow :=
  pdbs.map (mkMappingRow cdb_mapping db_home_mapping compartment_id compartment_name)

/-! CSV layer: Python `csv` default dialect (delimiter `,`, quotechar `"`,
doubled-quote escaping, line terminator `\r\n`, minimal quoting). -/

/-- A field must be quoted iff it contains the delimiter, the quote character
or a line-terminator character (Python `QUOTE_MINIMAL`). -/
def needsQuote (s : List Char) : Bool :=
  s.any (fun c => c == ',' || c == '"' || c == '\r' || c == '\n')

/-- Doubles every quote character (Python `doublequote=True`). -/
def escapeField : List Char → List Char
  | [] => []
  | c :: rest => if c = '"' then '"' :: '"' :: escapeField rest else c :: escapeField rest

/-- Serialises one CSV field with minimal quoting. -/
def renderField (s : List Char) : List Char :=
  if needsQuote s then '"' :: (escapeField s ++ ['"']) else s

/-- Serialises the fields of one record, comma-delimited. -/
def renderFields : List (List Char) → List Char
  | [] => []
  | [f] => renderField f
  | f :: rest => renderField f ++ ',' :: renderFields rest

/-- Serialises one CSV record, `\r\n`-terminated. -/
def renderRecord (fs : List (List Char)) : List Char :=
  renderFields fs ++ ['\r', '\n']

/-- Serialises a whole CSV table. -/
def renderTable (rows : List (List (List Char))) : List Char :=
  (rows.map renderRecord).flatten

/-- CSV reader, quoted-field state (the opening quote has been consumed):
returns the field content and the remainder after the closing quote; a
doubled quote is an escaped quote. -/
def parseQuoted : List Char → Option (List Char × List Char)
  | [] => none
  | c :: rest =>
    if c = '"' then
      match rest with
      | [] => some ([], [])
      | c2 :: rest2 =>
        if c2 = '"' then (parseQuoted rest2).map (fun p => ('"' :: p.1, p.2))
        else some ([], rest)
    else (parseQuoted rest).map (fun p => (c :: p.1, p.2))

/-- Characters that end an unquoted field. -/
def isStopChar (c : Char) : Bool :=
  c == ',' || c == '\r' || c == '\n'

/-- CSV reader, unquoted-field state: consumes up to (not including) the next
delimiter or line-terminator character. -/
def parseUnquoted : List Char → List Char × List Char
  | [] => ([], [])
  | c :: rest =>
    if isStopChar c then ([], c :: rest)
    else
      let p := parseUnquoted rest
      (c :: p.1, p.2)

/-- CSV reader, one field: quoted iff it starts with a quote character. -/
def parseField : List Char → Option (List Char × List Char)
  | [] => some ([], [])
  | c :: rest => if c = '"' then parseQuoted rest else some (parseUnquoted (c :: rest))

/-- CSV reader, the fields of one record: returns the fields and the remainder
after the record's line terminator.  `fuel` bounds the number of fields. -/
def parseFieldsAux : Nat → List Char → Option (List (List Char) × List Char)
  | 0, _ => none
  | fuel + 1, input =>
    match parseField input with
    | none => none
    | some (f, rest) =>
      match rest with
      | [] => some ([f], [])
      | c :: rest2 =>
        if c = ',' then (parseFieldsAux fuel rest2).map (fun p => (f :: p.1, p.2))
        else if c = '\r' then
          match rest2 with
          | '\n' :: rest3 => some ([f], rest3)
          | _ => some ([f], rest2)
        else if c = '\n' then some ([f], rest2)
        else none

/-- CSV reader, a sequence of records until end of input.  `fuel` bounds the
number of records. -/
def parseRowsAux : Nat → List Char → Option (List (List (List Char)))
  | 0, _ => none
  | fuel + 1, input =>
    if input = [] then some []
    else
      match parseFieldsAux (input.length + 1) input with
      | none => none
      | some (fs, rest) => (parseRowsAux fuel rest).map (fun rs => fs :: rs)

/-- CSV reader for a whole file (models reading the output back with a strict
CSV reader). -/
def parseCsv (input : List Char) : Option (List (List (List Char))) :=
  parseRowsAux (input.length + 1) input

/-- The fixed header written by `save_to_csv` (the `fieldnames` list). -/
def headerFields : List (List Char) :=
  ["PDB_Name".data, "CDB_Name".data, "Oracle_Home".data, "Compartment_Name".data, "CDB_ID".data, "Compartment_ID".data]

/-- The six fields of a row, in the `fieldnames` order used by the
`csv.DictWriter`. -/
def rowFields (r : MappingRow) : List (List Char) :=
  [r.PDB_Name.data, r.CDB_Name.data, r.Oracle_Home.data, r.Compartment_Name.data, r.CDB_ID.data, r.Compartment_ID.data]

/-- Contents of the CSV file: `writeheader()` then `writerows(mapping)`. -/
def renderCsv (mapping : List MappingRow) : List Char :=
  renderTable (headerFields :: mapping.map rowFields)

/-- Embeds `save_to_csv`.  `writeOk = false` models an I/O error raised while
opening or writing the file: the exception is caught, an error line is logged
and the function returns normally with the file system unchanged.  On success
the file is (over)written.  Returns the new file system and the printed
lines. -/
def save_to_csv (mapping : List MappingRow) (output_file : String) (writeOk : Bool)
    (fs : List (String × List Char)) : List (String × List Char) × List String :=
  if writeOk then
    (fs ++ [(output_file, renderCsv mapping)], ["CSV generated: " ++ output_file])
  else
    (fs, ["Error saving CSV"])

/-- Observable outcome of a run of `main`: the resulting file system, the
printed log lines in order, and the process exit code. -/
structure MainResult where
  fs : List (String × List Char)
  log : List String
  exitCode : Nat
deriving DecidableEq, Repr

/-- Embeds `main`, parameterised by the data each fetch returned (`pdbs`,
`databases`, `db_homes`, `compartment`), the `--compartment-id` argument and
whether the CSV write succeeds.  Python `main` returns `None` on every path,
so the process exit code is 0 on every path. -/
def main (pdbs databases db_homes : List Record) (compartment : Record)
    (compartment_id : String) (writeOk : Bool) : MainResult :=
  if pdbs = [] then
    { fs := [],
      log := ["Starting extraction...", "Fetching PDBs...",
              "No PDB data found. Check OCI CLI command and permissions."],
      exitCode := 0 }
  else
    let cdb_mapping := get_cdb_mapping databases
    let db_home_mapping := get_db_home_mapping db_homes
    let compartment_name := get_compartment_name compartment
    let mapping := extract_pdb_cdb_mapping pdbs cdb_mapping db_home_mapping compartment_id compartment_name
    let saved := save_to_csv mapping "pdb_cdb_mapping.csv" writeOk []
    { fs := saved.1,
      log := ["Starting extraction...", "Fetching PDBs...", "Fetching CDBs...",
              "Fetching DB Homes...", "Fetching Compartment Name..."]
             ++ saved.2 ++ ["Process completed successfully."],
      exitCode := 0 }

/-! Round-trip lemmas: the strict CSV reader recovers exactly the table the
writer serialised. -/

theorem parseQuoted_escape (f rest : List Char) (h : ∀ c cs, rest = c :: cs → c ≠ '"') :
    parseQuoted (escapeField f ++ '"' :: rest) = some (f, rest) := by
  induction f with
  | nil =>
    cases rest with
    | nil => simp [escapeField, parseQuoted]
    | cons c cs =>
      have hc : c ≠ '"' := h c cs rfl
      simp [escapeField, parseQuoted, hc]
  | cons c t ih =>
    by_cases hc : c = '"'
    · subst hc
      rw [show escapeField ('"' :: t) = '"' :: '"' :: escapeField t by simp [escapeField]]
      rw [List.cons_append, List.cons_append, parseQuoted.eq_def]
      simp [ih]
    · rw [show escapeField (c :: t) = c :: escapeField t by simp [escapeField, hc]]
      rw [List.cons_append, parseQuoted.eq_def]
      simp [hc, ih]

theorem parseUnquoted_append (f rest : List Char) (hf : ∀ c ∈ f, isStopChar c = false)
    (hrest : rest = [] ∨ ∃ c cs, rest = c :: cs ∧ isStopChar c = true) :
    parseUnquoted (f ++ rest) = (f, rest) := by
  induction f with
  | nil =>
    rcases hrest with h | ⟨c, cs, rfl, hc⟩
    · subst h; simp [parseUnquoted]
    · simp [parseUnquoted, hc]
  | cons c t ih =>
    have hc : isStopChar c = false := hf c (by simp)
    have ih2 := ih (fun x hx => hf x (by simp [hx]))
    simp [parseUnquoted, hc, ih2]

theorem needsQuote_false_mem {f : List Char} (h : needsQuote f = false) :
    ∀ c ∈ f, c ≠ ',' ∧ c ≠ '"' ∧ c ≠ '\r' ∧ c ≠ '\n' := by
  intro c hc
  have := List.any_eq_false.mp h c hc
  simpa [and_assoc] using this

theorem parseField_render (f rest : List Char)
    (h : rest = [] ∨ rest.head? = some ',' ∨ rest.head? = some '\r') :
    parseField (renderField f ++ rest) = some (f, rest) := by
  by_cases hq : needsQuote f = true
  · have hrest : ∀ c cs, rest = c :: cs → c ≠ '"' := by
      intro c cs hcs
      rcases h with h | h | h
      · simp [hcs] at h
      · rw [hcs] at h; simp at h; simp [h]
      · rw [hcs] at h; simp at h; simp [h]
    have : renderField f ++ rest = '"' :: (escapeField f ++ '"' :: rest) := by
      simp [renderField, hq]
    rw [this]
    simp [parseField, parseQuoted_escape f rest hrest]
  · have hq' : needsQuote f = false := by simpa using hq
    have hmem := needsQuote_false_mem hq'
    have hstop : ∀ c ∈ f, isStopChar c = false := by
      intro c hc
      obtain ⟨h1, _, h3, h4⟩ := hmem c hc
      simp [isStopChar, h1, h3, h4]
    have hrest2 : rest = [] ∨ ∃ c cs, rest = c :: cs ∧ isStopChar c = true := by
      rcases h with h | h | h
      · exact Or.inl h
      · cases rest with
        | nil => exact Or.inl rfl
        | cons c cs =>
          simp at h
          exact Or.inr ⟨c, cs, rfl, by simp [isStopChar, h]⟩
      · cases rest with
        | nil => exact Or.inl rfl
        | cons c cs =>
          simp at h
          exact Or.inr ⟨c, cs, rfl, by simp [isStopChar, h]⟩
    rw [renderField, if_neg (by simp [hq'])]
    cases f with
    | nil =>
      rcases hrest2 with h | ⟨c, cs, rfl, hc⟩
      · subst h; simp [parseField]
      · have hne : c ≠ '"' := by
          rcases (by simpa [isStopChar, or_assoc] using hc : c = ',' ∨ c = '\r' ∨ c = '\n') with h | h | h <;>
            simp [h]
        simp [parseField, hne, parseUnquoted, hc]
    | cons c t =>
      have hcq : c ≠ '"' := (hmem c (by simp)).2.1
      have : parseUnquoted ((c :: t) ++ rest) = (c :: t, rest) :=
        parseUnquoted_append (c :: t) rest hstop hrest2
      simp only [List.cons_append, parseField, if_neg hcq]
      rw [← List.cons_append, this]

theorem length_renderFields (fs : List (List Char)) :
    fs.length ≤ (renderFields fs).length + 1 := by
  induction fs with
  | nil => simp [renderFields]
  | cons f t ih =>
    cases t with
    | nil => simp [renderFields]
    | cons g u =>
      simp only [renderFields, List.length_cons, List.length_append] at *
      omega

theorem parseFieldsAux_render (fs : List (List Char)) :
    ∀ (fuel : Nat) (rest : List Char), fs ≠ [] → fs.length ≤ fuel →
    parseFieldsAux fuel (renderFields fs ++ '\r' :: '\n' :: rest) = some (fs, rest) := by
  induction fs with
  | nil => intro fuel rest h; exact absurd rfl h
  | cons f t ih =>
    intro fuel rest _ hlen
    obtain ⟨fuel, rfl⟩ : ∃ k, fuel = k + 1 := by
      cases fuel with
      | zero => simp at hlen
      | succ k => exact ⟨k, rfl⟩
    cases t with
    | nil =>
      have hfield : parseField (renderField f ++ '\r' :: '\n' :: rest) = some (f, '\r' :: '\n' :: rest) :=
        parseField_render f _ (Or.inr (Or.inr rfl))
      simp [renderFields, parseFieldsAux, hfield]
    | cons g u =>
      have hassoc : renderFields (f :: g :: u) ++ '\r' :: '\n' :: rest
          = renderField f ++ ',' :: (renderFields (g :: u) ++ '\r' :: '\n' :: rest) := by
        simp [renderFields]
      have hfield : parseField (renderField f ++ ',' :: (renderFields (g :: u) ++ '\r' :: '\n' :: rest))
          = some (f, ',' :: (renderFields (g :: u) ++ '\r' :: '\n' :: rest)) :=
        parseField_render f _ (Or.inr (Or.inl rfl))
      have ih2 := ih fuel rest (by simp) (by simp at hlen ⊢; omega)
      rw [hassoc]
      simp [parseFieldsAux, hfield, ih2]

theorem length_renderRecord (fs : List (List Char)) :
    (renderRecord fs).length = (renderFields fs).length + 2 := by
  simp [renderRecord]

theorem renderTable_cons (r : List (List Char)) (rt : List (List (List Char))) :
    renderTable (r :: rt) = renderFields r ++ '\r' :: '\n' :: renderTable rt := by
  simp [renderTable, renderRecord]

theorem parseRowsAux_render (rows : List (List (List Char))) :
    ∀ fuel : Nat, (∀ r ∈ rows, r ≠ []) → rows.length < fuel →
    parseRowsAux fuel (renderTable rows) = some rows := by
  induction rows with
  | nil =>
    intro fuel _ hfuel
    obtain ⟨k, rfl⟩ : ∃ k, fuel = k + 1 := by
      cases fuel with
      | zero => omega
      | succ k => exact ⟨k, rfl⟩
    simp [renderTable, parseRowsAux]
  | cons r rt ih =>
    intro fuel hne hfuel
    obtain ⟨k, rfl⟩ : ∃ k, fuel = k + 1 := by
      cases fuel with
      | zero => omega
      | succ k => exact ⟨k, rfl⟩
    rw [renderTable_cons]
    have hinput_ne : renderFields r ++ '\r' :: '\n' :: renderTable rt ≠ [] := by
      intro hcontra
      have := List.append_eq_nil.mp hcontra
      simp at this
    have hlenfield : r.length ≤ (renderFields r ++ '\r' :: '\n' :: renderTable rt).length + 1 := by
      have h1 := length_renderFields r
      simp only [List.length_append, List.length_cons]
      omega
    have hfields := parseFieldsAux_render r
      ((renderFields r ++ '\r' :: '\n' :: renderTable rt).length + 1)
      (renderTable rt) (hne r (by simp)) hlenfield
    have ihr := ih k (fun x hx => hne x (by simp [hx])) (by simp at hfuel; omega)
    rw [parseRowsAux]
    rw [if_neg hinput_ne, hfields]
    simp [ihr]

theorem length_renderTable (rows : List (List (List Char))) :
    rows.length ≤ (renderTable rows).length := by
  induction rows with
  | nil => simp [renderTable]
  | cons r rt ih =>
    rw [renderTable_cons]
    simp only [List.length_cons, List.length_append]
    omega

theorem parseCsv_renderTable (rows : List (List (List Char))) (h : ∀ r ∈ rows, r ≠ []) :
    parseCsv (renderTable rows) = some rows := by
  have hlen : rows.length < (renderTable rows).length + 1 := by
    have := length_renderTable rows
    omega
  exact parseRowsAux_render rows ((renderTable rows).length + 1) h hlen

theorem parseCsv_renderCsv (mapping : List MappingRow) :
    parseCsv (renderCsv mapping) = some (headerFields :: mapping.map rowFields) := by
  apply parseCsv_renderTable
  intro r hr
  rcases List.mem_cons.mp hr with rfl | hr
  · simp [headerFields]
  · obtain ⟨row, _, rfl⟩ := List.mem_map.mp hr
    simp [rowFields]

/-- Overwrite-style lookup: the binding appended last wins. -/
theorem dictGet_append_single {α : Type} (fs : List (String × α)) (k : String) (v : α) :
    dictGet (fs ++ [(k, v)]) k = some v := by
  induction fs with
  | nil => simp [dictGet]
  | cons a t ih =>
    obtain ⟨ak, av⟩ := a
    simp [dictGet, ih]

/-! Claim theorems. -/

/-- C1: for every PDB list of length N, the join produces exactly N rows, one
per PDB in input order; when N > 0 the run writes `pdb_cdb_mapping.csv` with
exactly N data rows after the header; when N == 0 the run aborts early and no
file is written. -/
theorem pdb_count_determines_rows_and_file
    (pdbs databases db_homes : List Record) (compartment : Record) (compartment_id : String) :
    ((extract_pdb_cdb_mapping pdbs (get_cdb_mapping databases) (get_db_home_mapping db_homes)
        compartment_id (get_compartment_name compartment)).length = pdbs.length
     ∧ ∀ i : Nat,
        (extract_pdb_cdb_mapping pdbs (get_cdb_mapping databases) (get_db_home_mapping db_homes)
            compartment_id (get_compartment_name compartment))[i]?
          = (pdbs[i]?).map (mkMappingRow (get_cdb_mapping databases) (get_db_home_mapping db_homes)
              compartment_id (get_compartment_name compartment)))
    ∧ (pdbs ≠ [] →
        ∃ content dataRows,
          dictGet (main pdbs databases db_homes compartment compartment_id true).fs "pdb_cdb_mapping.csv"
              = some content
          ∧ parseCsv content = some (headerFields :: dataRows)
          ∧ dataRows.length = pdbs.length)
    ∧ (∀ writeOk : Bool, pdbs = [] →
        (main pdbs databases db_homes compartment compartment_id writeOk).fs = []) := by
  refine ⟨⟨by simp [extract_pdb_cdb_mapping], fun i => by simp [extract_pdb_cdb_mapping]⟩, ?_, ?_⟩
  · intro h
    refine ⟨renderCsv (extract_pdb_cdb_mapping pdbs (get_cdb_mapping databases)
        (get_db_home_mapping db_homes) compartment_id (get_compartment_name compartment)),
      (extract_pdb_cdb_mapping pdbs (get_cdb_mapping databases) (get_db_home_mapping db_homes)
        compartment_id (get_compartment_name compartment)).map rowFields,
      ?_, parseCsv_renderCsv _, by simp [extract_pdb_cdb_mapping]⟩
    simp [main, h, save_to_csv, dictGet]
  · intro writeOk h
    simp [main, h]

/-- C1 witness: a one-PDB run writes a one-data-row file, and an empty-PDB run
leaves the file system empty. -/
theorem pdb_count_determines_rows_and_file_witness :
    ([[("pdb-name", "P1"), ("container-database-id", "cdb1")]] ≠ ([] : List Record))
    ∧ (∃ content dataRows,
        dictGet (main [[("pdb-name", "P1"), ("container-database-id", "cdb1")]]
            [[("id", "cdb1"), ("db-name", "C1"), ("db-home-id", "h1")]]
            [[("id", "h1"), ("display-name", "HOME1")]]
            [("name", "Prod")] "cid" true).fs "pdb_cdb_mapping.csv" = some content
        ∧ parseCsv content = some (headerFields :: dataRows)
        ∧ dataRows.length = 1)
    ∧ (main ([] : List Record)
        [[("id", "cdb1"), ("db-name", "C1"), ("db-home-id", "h1")]]
        [[("id", "h1"), ("display-name", "HOME1")]]
        [("name", "Prod")] "cid" false).fs = [] := by
  refine ⟨by simp, ?_, ?_⟩
  · have h := (pdb_count_determines_rows_and_file
      [[("pdb-name", "P1"), ("container-database-id", "cdb1")]]
      [[("id", "cdb1"), ("db-name", "C1"), ("db-home-id", "h1")]]
      [[("id", "h1"), ("display-name", "HOME1")]]
      [("name", "Prod")] "cid").2.1 (by simp)
    simpa using h
  · exact (pdb_count_determines_rows_and_file []
      [[("id", "cdb1"), ("db-name", "C1"), ("db-home-id", "h1")]]
      [[("id", "h1"), ("display-name", "HOME1")]]
      [("name", "Prod")] "cid").2.2 false rfl

/-- C2 counterexample: a fetcher CAN raise to its caller.  If the external
process exits 0 and its stdout is parseable JSON whose top level is not an
object (here the number 5), `json.loads(...).get("data", [])` raises
`AttributeError`, which `run_oci_command` does not catch.  This refutes the
universally quantified "never raises an exception to its caller, for any
possible behaviour of the external process". -/
theorem run_oci_command_raises_on_nonobject_json :
    get_pdb_list "p" "c" 0 (some (Json.num 5)) = PyResult.exn "AttributeError" := by
  simp [get_pdb_list, run_oci_command]

/-- C2 (amended): for every invocation, if the external process exits non-zero
or its stdout is not parseable JSON, the fetcher returns an empty list (for
commands containing `"list"`) or an empty mapping (otherwise) and does not
raise; raising is only possible when the process exits zero with parseable
non-object JSON output. -/
theorem run_oci_command_degrades_to_empty (command : List String) (returncode : Int)
    (stdout : Option Json) (h : returncode ≠ 0 ∨ stdout = none) :
    run_oci_command command returncode stdout
      = PyResult.ok (if "list" ∈ command then Json.arr [] else Json.obj [])
    ∧ ∀ msg, run_oci_command command returncode stdout ≠ PyResult.exn msg := by
  have heq : run_oci_command command returncode stdout
      = PyResult.ok (if "list" ∈ command then Json.arr [] else Json.obj []) := by
    rcases h with h | h
    · simp [run_oci_command, h]
    · subst h
      by_cases h0 : returncode = 0 <;> simp [run_oci_command, h0]
  refine ⟨heq, fun msg hmsg => ?_⟩
  rw [heq] at hmsg
  exact PyResult.noConfusion hmsg

/-- C2 witness: a failed PDB-list fetch returns the empty list. -/
theorem run_oci_command_degrades_to_empty_witness :
    ((1 : Int) ≠ 0 ∨ (none : Option Json) = none)
    ∧ run_oci_command ["oci", "db", "pluggable-database", "list", "--limit", "1000",
        "--compartment-id", "c", "--profile", "p"] 1 none = PyResult.ok (Json.arr []) := by
  refine ⟨Or.inl (by decide), ?_⟩
  have h := (run_oci_command_degrades_to_empty
    ["oci", "db", "pluggable-database", "list", "--limit", "1000",
      "--compartment-id", "c", "--profile", "p"] 1 none (Or.inl (by decide))).1
  rw [h, if_pos (by decide)]

/-- C3: a PDB whose container-database-id misses the CDB mapping (in
particular whenever the CDB mapping is empty) still yields a row, at its input
position, with `CDB_Name = "Unknown CDB"` and
`Oracle_Home = "Unknown Oracle Home"`. -/
theorem missing_cdb_gives_placeholders (pdbs : List Record)
    (cdb_mapping : List (String × CdbInfo)) (db_home_mapping : List (String × String))
    (compartment_id compartment_name : String) :
    (∀ (i : Nat) (pdb : Record) (c : String), pdbs[i]? = some pdb →
        dictGet pdb "container-database-id" = some c →
        dictGet cdb_mapping c = none →
        ∃ row, (extract_pdb_cdb_mapping pdbs cdb_mapping db_home_mapping
            compartment_id compartment_name)[i]? = some row
          ∧ row.CDB_Name = "Unknown CDB" ∧ row.Oracle_Home = "Unknown Oracle Home")
    ∧ (cdb_mapping = [] → ∀ (i : Nat) (pdb : Record), pdbs[i]? = some pdb →
        ∃ row, (extract_pdb_cdb_mapping pdbs cdb_mapping db_home_mapping
            compartment_id compartment_name)[i]? = some row
          ∧ row.CDB_Name = "Unknown CDB" ∧ row.Oracle_Home = "Unknown Oracle Home") := by
  constructor
  · intro i pdb c hi hc hnone
    refine ⟨mkMappingRow cdb_mapping db_home_mapping compartment_id compartment_name pdb,
      by simp [extract_pdb_cdb_mapping, hi], ?_, ?_⟩
    · simp [mkMappingRow, hc, hnone]
    · simp [mkMappingRow, hc, hnone]
  · rintro rfl i pdb hi
    refine ⟨mkMappingRow [] db_home_mapping compartment_id compartment_name pdb,
      by simp [extract_pdb_cdb_mapping, hi], ?_, ?_⟩
    · cases hcd : dictGet pdb "container-database-id" <;> simp [mkMappingRow, dictGet, hcd]
    · cases hcd : dictGet pdb "container-database-id" <;> simp [mkMappingRow, dictGet, hcd]

/-- C3 witness: an unmapped container-database-id resolves to both
placeholders at the PDB's input position. -/
theorem missing_cdb_gives_placeholders_witness :
    (dictGet [("pdb-name", "P1"), ("container-database-id", "cdbX")] "container-database-id"
        = some "cdbX")
    ∧ (dictGet [("cdb1", CdbInfo.mk "C1" "h1")] "cdbX" = none)
    ∧ ∃ row, (extract_pdb_cdb_mapping [[("pdb-name", "P1"), ("container-database-id", "cdbX")]]
        [("cdb1", CdbInfo.mk "C1" "h1")] [("h1", "HOME1")] "cid" "Prod")[0]? = some row
      ∧ row.CDB_Name = "Unknown CDB" ∧ row.Oracle_Home = "Unknown Oracle Home" := by
  refine ⟨by decide, by decide, ?_⟩
  exact (missing_cdb_gives_placeholders
    [[("pdb-name", "P1"), ("container-database-id", "cdbX")]]
    [("cdb1", CdbInfo.mk "C1" "h1")] [("h1", "HOME1")] "cid" "Prod").1
    0 _ "cdbX" rfl (by decide) (by decide)

/-- C4: when the CSV write fails, the error is caught and logged, `main` still
ends its log with the completion message, and the run's exit status equals
that of a fully successful run (both 0). -/
theorem csv_failure_soft (pdbs databases db_homes : List Record) (compartment : Record)
    (compartment_id : String) (h : pdbs ≠ []) :
    (main pdbs databases db_homes compartment compartment_id false).log.getLast?
        = some "Process completed successfully."
    ∧ "Error saving CSV" ∈ (main pdbs databases db_homes compartment compartment_id false).log
    ∧ (main pdbs databases db_homes compartment compartment_id false).exitCode = 0
    ∧ (main pdbs databases db_homes compartment compartment_id false).exitCode
        = (main pdbs databases db_homes compartment compartment_id true).exitCode := by
  simp [main, h, save_to_csv]

/-- C4 witness: a concrete failed-write run still reports completion and exits
like a successful one. -/
theorem csv_failure_soft_witness :
    ([[("pdb-name", "P1")]] ≠ ([] : List Record))
    ∧ (main [[("pdb-name", "P1")]] [] [] [] "cid" false).log.getLast?
        = some "Process completed successfully." := by
  refine ⟨by simp, ?_⟩
  exact (csv_failure_soft [[("pdb-name", "P1")]] [] [] [] "cid" (by simp)).1

/-- C5: round-trip — writing any MappingRow sequence with the CSV writer and
reading the file back yields the header plus the rows, field for field. -/
theorem csv_round_trip (mapping : List MappingRow) :
    parseCsv (renderCsv mapping) = some (headerFields :: mapping.map rowFields) :=
  parseCsv_renderCsv mapping

/-- C6: the file written by `save_to_csv` under the fixed name
`pdb_cdb_mapping.csv` starts with the exact header line
`PDB_Name,CDB_Name,Oracle_Home,Compartment_Name,CDB_ID,Compartment_ID`
followed by one CSV record per MappingRow with the six fields in that order. -/
theorem csv_header_and_row_format (mapping : List MappingRow)
    (fs0 : List (String × List Char)) :
    dictGet (save_to_csv mapping "pdb_cdb_mapping.csv" true fs0).1 "pdb_cdb_mapping.csv"
      = some ("PDB_Name,CDB_Name,Oracle_Home,Compartment_Name,CDB_ID,Compartment_ID\r\n".data
          ++ (mapping.map (fun row => renderRecord (rowFields row))).flatten) := by
  have h1 : dictGet (fs0 ++ [("pdb_cdb_mapping.csv", renderCsv mapping)]) "pdb_cdb_mapping.csv"
      = some (renderCsv mapping) := dictGet_append_single fs0 _ _
  rw [save_to_csv, if_pos rfl, h1]
  have h2 : renderCsv mapping
      = renderRecord headerFields ++ (mapping.map (fun row => renderRecord (rowFields row))).flatten := by
    simp [renderCsv, renderTable, List.map_map, Function.comp_def]
  rw [h2]
  have h3 : renderRecord headerFields
      = "PDB_Name,CDB_Name,Oracle_Home,Compartment_Name,CDB_ID,Compartment_ID\r\n".data := by
    decide
  rw [h3]

/-- C7: every row of one run's join carries the run's compartment name and
compartment id. -/
theorem compartment_uniform_across_rows (pdbs : List Record)
    (cdb_mapping : List (String × CdbInfo)) (db_home_mapping : List (String × String))
    (compartment_id compartment_name : String) (row : MappingRow)
    (h : row ∈ extract_pdb_cdb_mapping pdbs cdb_mapping db_home_mapping
        compartment_id compartment_name) :
    row.Compartment_Name = compartment_name ∧ row.Compartment_ID = compartment_id := by
  obtain ⟨pdb, _, rfl⟩ := List.mem_map.mp h
  simp [mkMappingRow]

/-- C7 witness: the single row of a one-PDB join carries the run's
compartment name and id. -/
theorem compartment_uniform_across_rows_witness :
    (mkMappingRow [] [] "cid" "Prod" [] ∈ extract_pdb_cdb_mapping [[]] [] [] "cid" "Prod")
    ∧ (mkMappingRow [] [] "cid" "Prod" []).Compartment_Name = "Prod"
    ∧ (mkMappingRow [] [] "cid" "Prod" []).Compartment_ID = "cid" := by
  refine ⟨by simp [extract_pdb_cdb_mapping], ?_, ?_⟩
  · exact (compartment_uniform_across_rows [[]] [] [] "cid" "Prod" _
      (by simp [extract_pdb_cdb_mapping])).1
  · exact (compartment_uniform_across_rows [[]] [] [] "cid" "Prod" _
      (by simp [extract_pdb_cdb_mapping])).2

/-- C8: a PDB whose CDB is mapped but whose CDB's DB_Home_ID misses the home
mapping gets `Oracle_Home = "Unknown Oracle Home"` while `CDB_Name` is the
mapped CDB's name. -/
theorem missing_home_keeps_cdb_name (cdb_mapping : List (String × CdbInfo))
    (db_home_mapping : List (String × String)) (compartment_id compartment_name : String)
    (pdb : Record) (c : String) (info : CdbInfo)
    (h1 : dictGet pdb "container-database-id" = some c)
    (h2 : dictGet cdb_mapping c = some info)
    (h3 : dictGet db_home_mapping info.DB_Home_ID = none) :
    (mkMappingRow cdb_mapping db_home_mapping compartment_id compartment_name pdb).Oracle_Home
        = "Unknown Oracle Home"
    ∧ (mkMappingRow cdb_mapping db_home_mapping compartment_id compartment_name pdb).CDB_Name
        = info.CDB_Name := by
  constructor
  · simp [mkMappingRow, h1, h2, h3]
  · simp [mkMappingRow, h1, h2]

/-- C8 witness: a mapped CDB with an unmapped home resolves name but not
home. -/
theorem missing_home_keeps_cdb_name_witness :
    (dictGet [("cdb1", CdbInfo.mk "C1" "h9")] "cdb1" = some (CdbInfo.mk "C1" "h9"))
    ∧ (dictGet ([] : List (String × String)) "h9" = none)
    ∧ (mkMappingRow [("cdb1", CdbInfo.mk "C1" "h9")] [] "cid" "Prod"
        [("container-database-id", "cdb1")]).Oracle_Home = "Unknown Oracle Home"
    ∧ (mkMappingRow [("cdb1", CdbInfo.mk "C1" "h9")] [] "cid" "Prod"
        [("container-database-id", "cdb1")]).CDB_Name = "C1" := by
  refine ⟨by decide, by decide, ?_, ?_⟩
  · exact (missing_home_keeps_cdb_name [("cdb1", CdbInfo.mk "C1" "h9")] [] "cid" "Prod"
      [("container-database-id", "cdb1")] "cdb1" (CdbInfo.mk "C1" "h9")
      (by decide) (by decide) (by decide)).1
  · exact (missing_home_keeps_cdb_name [("cdb1", CdbInfo.mk "C1" "h9")] [] "cid" "Prod"
      [("container-database-id", "cdb1")] "cdb1" (CdbInfo.mk "C1" "h9")
      (by decide) (by decide) (by decide)).2

/-- C9: the row's CDB_ID is the PDB's container-database-id verbatim when
present, and the string `"Unknown CDB"` when absent. -/
theorem cdb_id_verbatim_or_placeholder (cdb_mapping : List (String × CdbInfo))
    (db_home_mapping : List (String × String)) (compartment_id compartment_name : String)
    (pdb : Record) :
    (∀ v, dictGet pdb "container-database-id" = some v →
      (mkMappingRow cdb_mapping db_home_mapping compartment_id compartment_name pdb).CDB_ID = v)
    ∧ (dictGet pdb "container-database-id" = none →
      (mkMappingRow cdb_mapping db_home_mapping compartment_id compartment_name pdb).CDB_ID
        = "Unknown CDB") := by
  constructor
  · intro v hv
    simp [mkMappingRow, hv]
  · intro hv
    simp [mkMappingRow, hv]

/-- C9 witness: present and absent container-database-id at concrete inputs. -/
theorem cdb_id_verbatim_or_placeholder_witness :
    (dictGet [("container-database-id", "ocid1.db.x")] "container-database-id"
        = some "ocid1.db.x")
    ∧ (mkMappingRow [] [] "cid" "Prod" [("container-database-id", "ocid1.db.x")]).CDB_ID
        = "ocid1.db.x"
    ∧ (mkMappingRow [] [] "cid" "Prod" [("pdb-name", "P1")]).CDB_ID = "Unknown CDB" := by
  refine ⟨by decide, ?_, ?_⟩
  · exact (cdb_id_verbatim_or_placeholder [] [] "cid" "Prod"
      [("container-database-id", "ocid1.db.x")]).1 "ocid1.db.x" (by decide)
  · exact (cdb_id_verbatim_or_placeholder [] [] "cid" "Prod" [("pdb-name", "P1")]).2 (by decide)

/-- C10: a PDB record without the pdb-name attribute yields the placeholder
`"Unknown PDB"` as the row's PDB_Name. -/
theorem missing_pdb_name_placeholder (cdb_mapping : List (String × CdbInfo))
    (db_home_mapping : List (String × String)) (compartment_id compartment_name : String)
    (pdb : Record) (h : dictGet pdb "pdb-name" = none) :
    (mkMappingRow cdb_mapping db_home_mapping compartment_id compartment_name pdb).PDB_Name
      = "Unknown PDB" := by
  simp [mkMappingRow, h]

/-- C10 witness: a record lacking pdb-name gets the placeholder name. -/
theorem missing_pdb_name_placeholder_witness :
    (dictGet [("container-database-id", "cdb1")] "pdb-name" = none)
    ∧ (mkMappingRow [] [] "cid" "Prod" [("container-database-id", "cdb1")]).PDB_Name
        = "Unknown PDB" :=
  ⟨by decide, missing_pdb_name_placeholder [] [] "cid" "Prod"
    [("container-database-id", "cdb1")] (by decide)⟩

end MapPdbCdb
